import Mathlib

/-!
Shallow embedding of the subscription lifecycle and retention engine of the
hotel-app repository (src/app.py).  Database rows become Lean structures,
the sqlite store becomes an explicit `Store` record threaded through every
operation, and `datetime` values become integers (seconds).  Operations that
touch the database are modelled in state-passing style
`Store → result × Store`; a transaction that aborts before `commit` returns
the original store (sqlite rolls back on close without commit).
-/

namespace HotelApp

/-- Seconds in one day (`timedelta(days=1)`). -/
def daySecs : Int := 86400

/-- Constant `TRIAL_DAYS = 7` (src/app.py line 87). -/
def TRIAL_DAYS : Int := 7

/-- Constant `ACCOUNT_DELETE_DAYS = 31` (src/app.py line 90). -/
def ACCOUNT_DELETE_DAYS : Int := 31

/-- One entry of `SUBSCRIPTION_PLANS` (src/app.py lines 80-84). -/
structure Plan where
  name : String
  price : Nat
  period_days : Int
deriving DecidableEq, Repr

/-- The `SUBSCRIPTION_PLANS` dictionary, as an association list. -/
def SUBSCRIPTION_PLANS : List (String × Plan) :=
  [("basic", ⟨"Basic", 2499, 30⟩),
   ("pro", ⟨"Pro", 5999, 30⟩),
   ("enterprise", ⟨"Enterprise", 15999, 30⟩)]

/-- Dictionary lookup `SUBSCRIPTION_PLANS[plan]` (raises `KeyError` when absent,
modelled by `none`). -/
def planLookup (plan : String) : Option Plan :=
  (SUBSCRIPTION_PLANS.find? (fun x => x.1 == plan)).map (·.2)

/-- One row of the `settings` table: a tenant (hotel) record. -/
structure Tenant where
  id : Nat
  hotel_name : String
  subscription_status : String
  trial_ends_at : Option Int
  subscription_plan : Option String
  subscription_start_date : Option Int
  subscription_end_date : Option Int
  payment_status : Option String
  razorpay_payment_id : Option String
  last_payment_date : Option Int
  is_active : Nat
  created_at : Int
deriving DecidableEq, Repr

/-- One row of the append-only `subscription_logs` table. -/
structure SubLog where
  hotel_id : Nat
  hotel_name : String
  event_type : String
  event_description : String
  old_status : Option String
  new_status : Option String
  created_at : Int
deriving DecidableEq, Repr

/-- One row of the `payments` table. -/
structure PaymentRow where
  order_id : String
  payment_id : String
  amount : Nat
  status : String
  created_at : Int
deriving DecidableEq, Repr

/-- One row of the `otp_tokens` table. -/
structure OtpToken where
  owner_email : String
  otp_code : String
  expires_at : Int
  is_used : Nat
deriving DecidableEq, Repr

/-- One row of the `orders` table (only the columns the engine touches). -/
structure OrderRow where
  hotel_id : Nat
  created_at : Int
deriving DecidableEq, Repr

/-- One row of the `menu_items` table (only the columns the engine touches). -/
structure MenuItemRow where
  hotel_id : Nat
deriving DecidableEq, Repr

/-- One row of the `restaurant_tables` table. -/
structure TableRow where
  hotel_id : Nat
deriving DecidableEq, Repr

/-- The sqlite database state. -/
structure Store where
  settings : List Tenant
  subscription_logs : List SubLog
  payments : List PaymentRow
  otp_tokens : List OtpToken
  orders : List OrderRow
  menu_items : List MenuItemRow
  restaurant_tables : List TableRow
deriving DecidableEq, Repr

/-- Query `SELECT ... FROM settings WHERE id = ?` followed by `fetchone`. -/
def findTenant (s : Store) (hotel_id : Nat) : Option Tenant :=
  s.settings.find? (fun t : Tenant => t.id == hotel_id)

/-- The `settings` table has a primary key on `id`: no two rows share an id. -/
def UniqueIds (s : Store) : Prop :=
  s.settings.Pairwise (fun a b => a.id ≠ b.id)

/-- The dictionary built by `get_subscription_status` (src/app.py 569-592). -/
structure SubStatus where
  status : String
  trial_ends_at : Option Int
  subscription_end_date : Option Int
  is_active : Nat
  last_payment_date : Option Int
  plan : Option String
deriving DecidableEq, Repr

/-- Model of `get_subscription_status(hotel_id)` (src/app.py 569-592): pure read of the
tenant row, `None` when absent. -/
def get_subscription_status (s : Store) (hotel_id : Nat) : Option SubStatus :=
  match findTenant s hotel_id with
  | none => none
  | some r => some ⟨r.subscription_status, r.trial_ends_at, r.subscription_end_date,
      r.is_active, r.last_payment_date, r.subscription_plan⟩

/-- Model of `is_subscription_active(hotel_id)` (src/app.py 594-619).  Result is
`none` when the code would raise (`datetime.fromisoformat(None)` on a trial
row whose `trial_ends_at` is NULL); otherwise `some b`.  Returned together
with the store to express that the read mutates nothing. -/
def is_subscription_active (s : Store) (hotel_id : Nat) (now : Int) :
    Option Bool × Store :=
  let r : Option Bool :=
    match get_subscription_status s hotel_id with
    | none => some false
    | some st =>
      if st.is_active == 0 then some false
      else if st.status == "trial" then
        match st.trial_ends_at with
        | none => none
        | some trial_ends => if now < trial_ends then some true else some false
      else if st.status == "active" then
        match st.subscription_end_date with
        | some sub_ends => if now < sub_ends then some true else some false
        | none => some false
      else some false
  (r, s)

/-- Render one byte as two lowercase hex digits, as `hexdigest` does. -/
def hexChar (n : Nat) : Char :=
  if n < 10 then Char.ofNat (48 + n) else Char.ofNat (87 + n)

/-- Rendering `hexdigest()` of a byte string: lowercase hexadecimal rendering. -/
def hexdigest (bytes : List Nat) : String :=
  String.join (bytes.map (fun b => String.mk [hexChar (b / 16), hexChar (b % 16)]))

/-- Model of `verify_razorpay_payment(order_id, payment_id, signature, hotel_id)`
(src/app.py 655-688).  The HMAC-SHA256 primitive from the `hmac`/`hashlib`
libraries is an external collaborator, abstracted as `mac : secret → message →
byte string`; the code renders it with `hexdigest()` and compares with `==`.
On match it inserts a `payments` row with status `"verified"` and commits. -/
def verify_razorpay_payment (mac : String → String → List Nat) (secret : String)
    (s : Store) (order_id payment_id signature : String) (now : Int) :
    (Bool × String) × Store :=
  let verify_string := order_id ++ "|" ++ payment_id
  let generated_signature := hexdigest (mac secret verify_string)
  if generated_signature == signature then
    ((true, "Payment verified successfully"),
     { s with payments := s.payments ++ [⟨order_id, payment_id, 0, "verified", now⟩] })
  else
    ((false, "Payment signature mismatch"), s)

/-- Model of `check_existing_subscription(hotel_id)` (src/app.py 690-709): pure read. -/
def check_existing_subscription (s : Store) (hotel_id : Nat) (now : Int) :
    Bool × Option String :=
  match s.settings.find? (fun t : Tenant => t.id == hotel_id && t.subscription_status == "active") with
  | some r =>
    match r.subscription_end_date with
    | some sub_ends =>
      if now < sub_ends then (true, r.subscription_plan) else (false, none)
    | none => (false, none)
  | none => (false, none)

/-- Columns of the `settings` table as created by `init_db` (src/app.py
1228-1252) together with the ALTER TABLE migrations (src/app.py 1404-1452 and
add_currency_column.py).  Note there is no `subscription_start_date`, no
`payment_status` and no `razorpay_payment_id`. -/
def settingsColumns : List String :=
  ["id", "hotel_name", "hotel_slug", "hotel_address", "hotel_gstn",
   "hotel_food_license", "hotel_logo", "owner_email", "owner_password",
   "owner_verified", "auto_accept_orders", "print_name", "print_address",
   "print_gstn", "print_license", "subscription_status", "trial_ends_at",
   "subscription_end_date", "is_active", "last_payment_date",
   "subscription_plan", "created_at", "updated_at", "approval_status",
   "contact_email", "contact_phone", "service_online_ordering",
   "service_table_management", "service_analytics", "service_payments",
   "currency"]

/-- Columns of the `subscription_logs` table as created by `init_db`
(src/app.py 1307-1315).  Note there is no `old_status`. -/
def subscriptionLogsColumns : List String :=
  ["id", "hotel_id", "hotel_name", "event_type", "event_description",
   "new_status", "created_at"]

/-- Column names referenced by the UPDATE of `activate_subscription`
(src/app.py 720-730). -/
def activateUpdateColumns : List String :=
  ["subscription_status", "subscription_plan", "subscription_start_date",
   "subscription_end_date", "payment_status", "razorpay_payment_id",
   "last_payment_date", "is_active", "id"]

/-- Column names referenced by the log INSERT of `deactivate_account` and of
`check_trial_expiry` (src/app.py 755-758 and 817-820). -/
def logInsertColumns : List String :=
  ["hotel_id", "hotel_name", "event_type", "event_description",
   "old_status", "new_status"]

/-- Column names referenced by the log INSERT of `activate_subscription`
(src/app.py 733-737). -/
def activateLogColumns : List String :=
  ["hotel_id", "hotel_name", "event_type", "event_description", "new_status"]

/-- Statement preparation: sqlite accepts a statement only when every column
it references exists in the table, and otherwise raises
`OperationalError: no such column` before touching any row. -/
def columnsOk (tableCols stmtCols : List String) : Bool :=
  stmtCols.all (fun c => tableCols.contains c)

/-- The row update performed by `activate_subscription` on the tenant row. -/
def activatedRow (plan : String) (payment_id : Option String) (now end_date : Int)
    (t : Tenant) : Tenant :=
  { t with subscription_status := "active", subscription_plan := some plan,
           subscription_start_date := some now, subscription_end_date := some end_date,
           payment_status := some "completed", razorpay_payment_id := payment_id,
           last_payment_date := some now, is_active := 1 }

/-- Model of `activate_subscription(hotel_id, plan, payment_id)` (src/app.py 711-745).
Runs inside one connection: UPDATE, then INSERT INTO subscription_logs
(SELECT from settings), then commit.  Any exception (`KeyError` on an unknown
plan, the prepare-time `no such column` error of the UPDATE — which names the
settings columns `subscription_start_date`, `payment_status` and
`razorpay_payment_id` that the schema never defines — or a storage failure
injected through the `failUpdate`/`failInsert`/`failCommit` flags) is caught
and the connection is closed without commit, rolling everything back. -/
def activate_subscription (s : Store) (hotel_id : Nat) (plan : String)
    (payment_id : Option String) (now : Int)
    (failUpdate failInsert failCommit : Bool) : Bool × Store :=
  match planLookup plan with
  | none => (false, s)
  | some p =>
    let end_date := now + p.period_days * daySecs
    if failUpdate || !(columnsOk settingsColumns activateUpdateColumns) then (false, s)
    else
      let s1 := { s with settings := s.settings.map (fun t : Tenant =>
        if t.id == hotel_id then activatedRow plan payment_id now end_date t else t) }
      if failInsert || !(columnsOk subscriptionLogsColumns activateLogColumns) then
        (false, s)
      else
        let s2 := { s1 with subscription_logs := s1.subscription_logs ++
          (s1.settings.filter (fun t : Tenant => t.id == hotel_id)).map (fun t : Tenant =>
            ⟨t.id, t.hotel_name, "subscription_activated",
             "Activated " ++ plan ++ " plan via Razorpay", none, some "active", now⟩) }
        if failCommit then (false, s) else (true, s2)

/-- Model of `deactivate_account(hotel_id, reason)` (src/app.py 747-767): the
UPDATE clearing `is_active` is buffered, but the log INSERT names the
`old_status` column that `subscription_logs` does not have, so it raises at
prepare time; the exception is caught and the connection closed without
commit, rolling back the UPDATE.  Every call returns failure with the store
unchanged. -/
def deactivate_account (s : Store) (hotel_id : Nat) (reason : String) (now : Int) :
    Bool × Store :=
  let s1 := { s with settings := s.settings.map (fun t : Tenant =>
    if t.id == hotel_id then { t with is_active := 0 } else t) }
  if !(columnsOk subscriptionLogsColumns logInsertColumns) then (false, s)
  else
    let s2 := { s1 with subscription_logs := s1.subscription_logs ++
      (s1.settings.filter (fun t : Tenant => t.id == hotel_id)).map (fun t : Tenant =>
        ⟨t.id, t.hotel_name, "account_deactivated", reason,
         some "active", some "inactive", now⟩) }
    (true, s2)

/-- Selection predicate of `check_subscription_expiry`: status `active`,
non-NULL `subscription_end_date`, already past. -/
def subExpiredSel (now : Int) (t : Tenant) : Bool :=
  t.subscription_status == "active" &&
    (match t.subscription_end_date with
     | some e => decide (e < now)
     | none => false)

/-- Loop body of `check_subscription_expiry`: deactivate one expired hotel. -/
def subExpiryStep (now : Int) (st : Store) (hotel : Tenant) : Store :=
  (deactivate_account st hotel.id
    ("Subscription expired on " ++
      (match hotel.subscription_end_date with
       | some e => toString e
       | none => "None")) now).2

/-- Model of `check_subscription_expiry()` (src/app.py 769-791): select expired paid
subscriptions and `deactivate_account` each; returns the number selected. -/
def check_subscription_expiry (s : Store) (now : Int) : Nat × Store :=
  let expired := s.settings.filter (subExpiredSel now)
  (expired.length, expired.foldl (subExpiryStep now) s)

/-- Selection predicate of `check_trial_expiry`: status `trial`, non-NULL
`trial_ends_at`, already past. -/
def trialExpiredSel (now : Int) (t : Tenant) : Bool :=
  t.subscription_status == "trial" &&
    (match t.trial_ends_at with
     | some e => decide (e < now)
     | none => false)

/-- The row update performed by `check_trial_expiry` on an expired trial. -/
def trialExpiredRow (t : Tenant) : Tenant :=
  { t with subscription_status := "trial_expired", is_active := 0 }

/-- Loop body of `check_trial_expiry`: expire one trial hotel (row update
plus a `trial_expired` log row per matching settings row). -/
def trialExpiryStep (now : Int) (st : Store) (hotel : Tenant) : Store :=
  let st1 := { st with settings := st.settings.map (fun t : Tenant =>
    if t.id == hotel.id then trialExpiredRow t else t) }
  { st1 with subscription_logs := st1.subscription_logs ++
    (st1.settings.filter (fun t : Tenant => t.id == hotel.id)).map (fun t : Tenant =>
      ⟨t.id, t.hotel_name, "trial_expired", "Free trial period ended",
       some "trial", some "trial_expired", now⟩) }

/-- Model of `check_trial_expiry()` (src/app.py 793-825): select expired trials and
loop over them.  With no expired trial the loop body never runs, the commit
succeeds and the count 0 is returned.  Otherwise the first iteration buffers
its UPDATE and then the log INSERT names the `old_status` column missing from
`subscription_logs`: the function has no try/except, so it raises uncaught
(`none`) and the connection is closed without commit, rolling back the
UPDATE. -/
def check_trial_expiry (s : Store) (now : Int) : Option Nat × Store :=
  let expired := s.settings.filter (trialExpiredSel now)
  match expired with
  | [] => (some 0, s)
  | _ :: _ =>
    if columnsOk subscriptionLogsColumns logInsertColumns then
      (some expired.length, expired.foldl (trialExpiryStep now) s)
    else
      (none, s)

/-- The four purge conditions of `check_account_inactivity`, with
`threshold = now - 31 days`. -/
def purgeCond (threshold : Int) (t : Tenant) : Bool :=
  t.subscription_status == "trial_expired" && t.last_payment_date.isNone &&
    decide (t.created_at < threshold) && t.is_active == 0

/-- Loop body of `check_account_inactivity`: re-check the four purge
conditions against the current state and only on reconfirmation delete the
settings row and cascade-delete the hotel's orders, menu items and tables. -/
def purgeStep (threshold : Int) (acc : Nat × Store) (hotel : Tenant) : Nat × Store :=
  if acc.2.settings.any (fun t : Tenant => t.id == hotel.id && purgeCond threshold t) then
    (acc.1 + 1,
     { acc.2 with
         settings := acc.2.settings.filter (fun t : Tenant => !(t.id == hotel.id)),
         orders := acc.2.orders.filter (fun o : OrderRow => !(o.hotel_id == hotel.id)),
         menu_items := acc.2.menu_items.filter (fun m : MenuItemRow => !(m.hotel_id == hotel.id)),
         restaurant_tables :=
           acc.2.restaurant_tables.filter (fun r : TableRow => !(r.hotel_id == hotel.id)) })
  else (acc.1, acc.2)

/-- Model of `check_account_inactivity()` (src/app.py 827-893): select tenants meeting
all four purge conditions; for each, re-check the same four conditions against
the current state, and only then delete the settings row and cascade-delete the
tenant's orders, menu items and tables.  Returns the number deleted. -/
def check_account_inactivity (s : Store) (now : Int) : Nat × Store :=
  let threshold := now - ACCOUNT_DELETE_DAYS * daySecs
  let inactive := s.settings.filter (purgeCond threshold)
  inactive.foldl (purgeStep threshold) (0, s)

/-- Model of `delete_old_orders(days_to_retain)` (src/app.py 899-955): the COUNT
queries run, the three DELETEs open an implicit transaction, and then
`VACUUM` (src/app.py 929) raises `OperationalError: cannot VACUUM from
within a transaction`; the except path returns failure without commit, so
every DELETE — orders, payments and subscription logs — rolls back.  No row
is ever deleted. -/
def delete_old_orders (s : Store) (now days_to_retain : Int) :
    Option (Nat × Nat) × Store :=
  let cutoff := now - days_to_retain * daySecs
  let _orders_to_delete :=
    (s.orders.filter (fun o : OrderRow => decide (o.created_at < cutoff))).length
  let _payments_to_delete :=
    (s.payments.filter (fun p : PaymentRow => decide (p.created_at < cutoff))).length
  let _pending :=
    { s with orders := s.orders.filter (fun o : OrderRow => !(decide (o.created_at < cutoff))),
             payments := s.payments.filter (fun p : PaymentRow => !(decide (p.created_at < cutoff))),
             subscription_logs :=
               s.subscription_logs.filter (fun l : SubLog => !(decide (l.created_at < cutoff))) }
  (none, s)

/-- Model of `save_otp(email, otp_code)` (src/app.py 229-254): delete every
`otp_tokens` row for the email, then insert a fresh token expiring in 10
minutes. -/
def save_otp (s : Store) (email otp_code : String) (now : Int) : Bool × Store :=
  let expires_at := now + 10 * 60
  (true,
   { s with otp_tokens := s.otp_tokens.filter (fun t : OtpToken => !(t.owner_email == email)) ++
       [⟨email, otp_code, expires_at, 0⟩] })

/-- Model of `check_otp(email, otp_code)` (src/app.py 256-278): pure read; true iff an
unused, unexpired token with that email and code exists. -/
def check_otp (s : Store) (email otp_code : String) (now : Int) : Bool :=
  s.otp_tokens.any (fun t : OtpToken =>
    t.owner_email == email && t.otp_code == otp_code && t.is_used == 0 &&
      decide (now < t.expires_at))

/-- Model of `mark_otp_used(email)` (src/app.py 280-299): set `is_used = 1` on every
unused token for the email. -/
def mark_otp_used (s : Store) (email : String) : Bool × Store :=
  (true,
   { s with otp_tokens := s.otp_tokens.map (fun t : OtpToken =>
       if t.owner_email == email && t.is_used == 0 then { t with is_used := 1 } else t) })

/-- Python truthiness of `data.get(key)`: present and non-empty. -/
def truthy (o : Option String) : Bool :=
  match o with
  | some v => !(v == "")
  | none => false

/-- Outcome of the `/api/verify-payment` endpoint. -/
inductive ApiPayResult
  | notAuthenticated
  | missingInfo
  | invalidPlan
  | conflictActive (existing_plan : Option String)
  | verificationFailed (msg : String)
  | activationFailed
  | activated (plan : String)
deriving DecidableEq, Repr

/-- Model of `api_verify_payment` (src/app.py 3102-3175): session check, input
presence check, plan check, duplicate-active-subscription guard, signature
verification, then activation. -/
def api_verify_payment (mac : String → String → List Nat) (secret : String)
    (s : Store) (session_hotel : Option Nat)
    (order_id payment_id signature plan : Option String) (now : Int)
    (failUpdate failInsert failCommit : Bool) : ApiPayResult × Store :=
  match session_hotel with
  | none => (.notAuthenticated, s)
  | some hotel_id =>
    if !(truthy order_id && truthy payment_id && truthy signature && truthy plan) then
      (.missingInfo, s)
    else
      let oid := order_id.getD ""
      let pid := payment_id.getD ""
      let sig := signature.getD ""
      let pl := plan.getD ""
      if (planLookup pl).isNone then (.invalidPlan, s)
      else
        let guard := check_existing_subscription s hotel_id now
        if guard.1 then (.conflictActive guard.2, s)
        else
          let vr := verify_razorpay_payment mac secret s oid pid sig now
          if vr.1.1 then
            let ar := activate_subscription vr.2 hotel_id pl (some pid) now
              failUpdate failInsert failCommit
            if ar.1 then (.activated pl, ar.2) else (.activationFailed, ar.2)
          else (.verificationFailed vr.1.2, vr.2)


/-! ## Sample data used by witnesses and counterexamples -/

/-- A tenant in an unexpired trial. -/
def trialTenant : Tenant :=
  ⟨1, "Hotel One", "trial", some 100, none, none, none, none, none, none, 1, 0⟩

/-- A store holding only `trialTenant`. -/
def trialStore : Store := ⟨[trialTenant], [], [], [], [], [], []⟩

/-- An empty database. -/
def emptyStore : Store := ⟨[], [], [], [], [], [], []⟩

/-- Replacement of the character at position `i` of a string: the
single-character mutations considered by the spec. -/
def mutateAt (str : String) (i : Nat) (c : Char) : String :=
  String.mk (str.data.set i c)

/-- A tenant whose paid subscription has already ended (end date 10). -/
def expiredPaidTenant : Tenant :=
  ⟨2, "Hotel Two", "active", none, some "basic", some 0, some 10,
   some "completed", some "pay_1", some 0, 1, 0⟩

/-- A store holding only `expiredPaidTenant`. -/
def expiredPaidStore : Store := ⟨[expiredPaidTenant], [], [], [], [], [], []⟩

/-- The tenant of the retention scenario: created at time 0 with a 7-day
trial, no payment ever. -/
def scenarioTenant : Tenant :=
  ⟨1, "Hotel One", "trial", some (7 * daySecs), none, none, none, none,
   none, none, 1, 0⟩

/-- A store holding only `scenarioTenant`, with one order of its own. -/
def scenarioStore : Store := ⟨[scenarioTenant], [], [], [], [⟨1, 0⟩], [], []⟩

/-- A concrete stand-in for the external HMAC primitive, used by witnesses. -/
def macSample (secret message : String) : List Nat :=
  [(secret.length + message.length) % 256, 171]

/-- A tenant with a paid subscription that is still running at time 500. -/
def paidTenant : Tenant :=
  ⟨3, "Hotel Three", "active", none, some "pro", some 0, some 1000,
   some "completed", some "pay_2", some 0, 1, 0⟩

/-- A store holding only `paidTenant`. -/
def paidStore : Store := ⟨[paidTenant], [], [], [], [], [], []⟩

/-- A store holding one unused, unexpired OTP token for `a@b`. -/
def otpStore : Store := ⟨[], [], [], [⟨"a@b", "111111", 1000, 0⟩], [], [], []⟩

/-- Relation between two stores: the second event log extends the first by
appending only (no row mutated or deleted). -/
def logsAppendOnly (s s2 : Store) : Prop :=
  ∃ tail : List SubLog, s2.subscription_logs = s.subscription_logs ++ tail

/-! ## General list lemmas used by the verification -/

/-- Filtering commutes with a map that leaves the predicate unchanged. -/
theorem filter_map_comm {α : Type} (u : α → α) (p : α → Bool)
    (h : ∀ x, p (u x) = p x) (l : List α) :
    (l.map u).filter p = (l.filter p).map u := by
  induction l with
  | nil => rfl
  | cons a l ih =>
    by_cases hpa : p a = true
    · simp [List.filter_cons, h, hpa, ih]
    · simp [List.filter_cons, h, hpa, ih]

/-- In a list with pairwise distinct ids, `find?` with a predicate that pins
the id returns the unique member satisfying it. -/
theorem find?_eq_some_of_unique {l : List Tenant} {t : Tenant} (p : Tenant → Bool)
    (hu : l.Pairwise (fun a b => a.id ≠ b.id)) (hmem : t ∈ l) (hpt : p t = true)
    (hid : ∀ x, p x = true → x.id = t.id) :
    l.find? p = some t := by
  induction l with
  | nil => cases hmem
  | cons a l ih =>
    rcases List.mem_cons.mp hmem with rfl | hmem2
    · exact List.find?_cons_of_pos _ hpt
    · by_cases hpa : p a = true
      · exact absurd (hid a hpa) ((List.pairwise_cons.mp hu).1 t hmem2)
      · rw [List.find?_cons_of_neg _ (by simp [hpa])]
        exact ih (List.pairwise_cons.mp hu).2 hmem2

/-- In a list with pairwise distinct ids, filtering by one id yields exactly
the unique member carrying it. -/
theorem filter_id_eq_single {l : List Tenant} {t : Tenant} {hid : Nat}
    (hu : l.Pairwise (fun a b => a.id ≠ b.id)) (hmem : t ∈ l) (heq : t.id = hid) :
    l.filter (fun x : Tenant => x.id == hid) = [t] := by
  induction l with
  | nil => cases hmem
  | cons a l ih =>
    rcases List.mem_cons.mp hmem with rfl | hmem2
    · have hrest : l.filter (fun x : Tenant => x.id == hid) = [] := by
        refine List.filter_eq_nil_iff.mpr ?_
        intro x hx
        have hne : t.id ≠ x.id := (List.pairwise_cons.mp hu).1 x hx
        simp [heq ▸ hne.symm]
      simp [List.filter_cons, heq, hrest]
    · have hne : a.id ≠ hid := heq ▸ (List.pairwise_cons.mp hu).1 t hmem2
      rw [List.filter_cons, if_neg (by simp [hne])]
      exact ih (List.pairwise_cons.mp hu).2 hmem2

/-! ## C1: entitlement check -/

/-- C1: for every tenant id, `is_subscription_active` returns false when the
tenant record is absent or its `is_active` field is 0; when status is
`trial` it returns true iff `now < trial_ends_at` (strict); when status is
`active` it returns true iff `subscription_end_date` is non-null and
`now < subscription_end_date`; in every other status it returns false; and
the check performs no state mutation. -/
theorem C1_is_subscription_active_spec (s : Store) (hotel_id : Nat) (now : Int) :
    (is_subscription_active s hotel_id now).2 = s ∧
    (findTenant s hotel_id = none →
      (is_subscription_active s hotel_id now).1 = some false) ∧
    (∀ t : Tenant, findTenant s hotel_id = some t → t.is_active = 0 →
      (is_subscription_active s hotel_id now).1 = some false) ∧
    (∀ t : Tenant, ∀ te : Int, findTenant s hotel_id = some t → t.is_active ≠ 0 →
      t.subscription_status = "trial" → t.trial_ends_at = some te →
      ((is_subscription_active s hotel_id now).1 = some true ↔ now < te)) ∧
    (∀ t : Tenant, findTenant s hotel_id = some t → t.is_active ≠ 0 →
      t.subscription_status = "active" →
      ((is_subscription_active s hotel_id now).1 = some true ↔
        ∃ se : Int, t.subscription_end_date = some se ∧ now < se)) ∧
    (∀ t : Tenant, findTenant s hotel_id = some t → t.is_active ≠ 0 →
      t.subscription_status ≠ "trial" → t.subscription_status ≠ "active" →
      (is_subscription_active s hotel_id now).1 = some false) := by
  refine ⟨rfl, ?_, ?_, ?_, ?_, ?_⟩
  · intro h
    simp [is_subscription_active, get_subscription_status, h]
  · intro t ht h0
    simp [is_subscription_active, get_subscription_status, ht, h0]
  · intro t te ht hact hstat hte
    simp only [is_subscription_active, get_subscription_status, ht]
    simp only [hstat, hte]
    by_cases hlt : now < te <;> simp [hlt, hact]
  · intro t ht hact hstat
    simp only [is_subscription_active, get_subscription_status, ht]
    simp only [hstat]
    cases hse : t.subscription_end_date with
    | none => simp [hact]
    | some se => by_cases hlt : now < se <;> simp [hlt, hact]
  · intro t ht hact hs1 hs2
    simp only [is_subscription_active, get_subscription_status, ht]
    simp [hact, hs1, hs2]

/-- Witness for C1 at a concrete store: the trial tenant is entitled before
its trial end. -/
theorem C1_witness :
    findTenant trialStore 1 = some trialTenant ∧
    (is_subscription_active trialStore 1 50).1 = some true :=
  ⟨by decide,
   ((C1_is_subscription_active_spec trialStore 1 50).2.2.2.1 trialTenant 100
     (by decide) (by decide) rfl rfl).mpr (by decide)⟩


/-! ## C2: payment signature verification -/

/-- Setting a position of a list to a value it does not already hold changes
the list. -/
theorem set_ne_of_ne {α : Type} (l : List α) (i : Nat) (c : α)
    (hlen : i < l.length) (hne : l[i]? ≠ some c) : l.set i c ≠ l := by
  intro heq
  apply hne
  rw [← heq]
  exact List.getElem?_set_eq_of_lt c hlen

/-- C2: payment verification reports verified iff the claimed signature equals
the hex rendering of the HMAC of `orderId ++ "|" ++ paymentId` under the
secret; any single-character mutation of a correct signature yields mismatch;
and a payment-verified log row is persisted exactly when the result is
verified. -/
theorem C2_verify_payment_spec (mac : String → String → List Nat) (secret : String)
    (s : Store) (order_id payment_id signature : String) (now : Int) :
    ((verify_razorpay_payment mac secret s order_id payment_id signature now).1.1 = true ↔
      signature = hexdigest (mac secret (order_id ++ "|" ++ payment_id))) ∧
    ((verify_razorpay_payment mac secret s order_id payment_id signature now).1.1 = true →
      (verify_razorpay_payment mac secret s order_id payment_id signature now).2 =
        { s with payments := s.payments ++ [⟨order_id, payment_id, 0, "verified", now⟩] }) ∧
    ((verify_razorpay_payment mac secret s order_id payment_id signature now).1.1 = false →
      (verify_razorpay_payment mac secret s order_id payment_id signature now).2 = s) ∧
    (∀ i : Nat, ∀ c : Char,
      i < (hexdigest (mac secret (order_id ++ "|" ++ payment_id))).data.length →
      (hexdigest (mac secret (order_id ++ "|" ++ payment_id))).data[i]? ≠ some c →
      (verify_razorpay_payment mac secret s order_id payment_id
        (mutateAt (hexdigest (mac secret (order_id ++ "|" ++ payment_id))) i c) now).1.1 =
        false) := by
  refine ⟨?_, ?_, ?_, ?_⟩
  · unfold verify_razorpay_payment
    by_cases h : hexdigest (mac secret (order_id ++ "|" ++ payment_id)) = signature
    · simp [h]
    · simp [h]
      exact fun hs => absurd hs.symm h
  · unfold verify_razorpay_payment
    by_cases h : hexdigest (mac secret (order_id ++ "|" ++ payment_id)) = signature
    · simp [h]
    · simp [h]
  · unfold verify_razorpay_payment
    by_cases h : hexdigest (mac secret (order_id ++ "|" ++ payment_id)) = signature
    · simp [h]
    · simp [h]
  · intro i c hlen hne
    have hmut : mutateAt (hexdigest (mac secret (order_id ++ "|" ++ payment_id))) i c ≠
        hexdigest (mac secret (order_id ++ "|" ++ payment_id)) := by
      intro heq
      have hdata := congrArg String.data heq
      simp only [mutateAt] at hdata
      exact set_ne_of_ne _ i c hlen hne hdata
    have hcond : ¬(hexdigest (mac secret (order_id ++ "|" ++ payment_id)) ==
        mutateAt (hexdigest (mac secret (order_id ++ "|" ++ payment_id))) i c) = true := by
      simp only [beq_iff_eq]
      exact fun h => hmut h.symm
    unfold verify_razorpay_payment
    rw [if_neg hcond]

/-- Witness for C2: with a two-byte MAC, the correct signature verifies and a
mutated one does not. -/
theorem C2_witness :
    ((verify_razorpay_payment macSample "sec" emptyStore "order_1" "pay_1"
        (hexdigest (macSample "sec" "order_1|pay_1")) 0).1.1 = true) ∧
    ((verify_razorpay_payment macSample "sec" emptyStore "order_1" "pay_1"
        (mutateAt (hexdigest (macSample "sec" "order_1|pay_1")) 0 'z') 0).1.1 = false) :=
  ⟨(C2_verify_payment_spec macSample "sec" emptyStore "order_1" "pay_1"
      (hexdigest (macSample "sec" "order_1|pay_1")) 0).1.mpr rfl,
   (C2_verify_payment_spec macSample "sec" emptyStore "order_1" "pay_1"
      (hexdigest (macSample "sec" "order_1|pay_1")) 0).2.2.2 0 'z'
      (by decide) (by decide)⟩


/-! ## C5: tenant purge safety -/

/-- Two members of a list with pairwise distinct ids that share an id are the
same member. -/
theorem eq_of_mem_of_id_eq {l : List Tenant} {u t : Tenant}
    (hp : l.Pairwise (fun a b => a.id ≠ b.id)) (hu : u ∈ l) (ht : t ∈ l)
    (hid : u.id = t.id) : u = t := by
  induction l with
  | nil => cases hu
  | cons a l ih =>
    rcases List.mem_cons.mp hu with rfl | hu2
    · rcases List.mem_cons.mp ht with rfl | ht2
      · rfl
      · exact absurd hid ((List.pairwise_cons.mp hp).1 t ht2)
    · rcases List.mem_cons.mp ht with rfl | ht2
      · exact absurd hid.symm ((List.pairwise_cons.mp hp).1 u hu2)
      · exact ih (List.pairwise_cons.mp hp).2 hu2 ht2

/-- Invariant of the purge loop: a tenant that fails the purge conditions is
never removed from the settings table, whatever candidates are processed. -/
theorem purge_foldl_keeps (threshold : Int) (t : Tenant) (orig : List Tenant)
    (hporig : orig.Pairwise (fun a b => a.id ≠ b.id))
    (hcond : purgeCond threshold t = false) :
    ∀ (cands : List Tenant) (acc : Nat × Store),
      acc.2.settings.Sublist orig → t ∈ acc.2.settings →
      t ∈ (cands.foldl (purgeStep threshold) acc).2.settings := by
  intro cands
  induction cands with
  | nil =>
    intro acc hsub hmem
    exact hmem
  | cons hotel cands ih =>
    intro acc hsub hmem
    rw [List.foldl_cons]
    by_cases hany : acc.2.settings.any
        (fun x : Tenant => x.id == hotel.id && purgeCond threshold x) = true
    · obtain ⟨u, humem, hup⟩ := List.any_eq_true.mp hany
      have huid : u.id = hotel.id := by
        have := (Bool.and_eq_true _ _).mp hup
        simpa using this.1
      have hucond : purgeCond threshold u = true := ((Bool.and_eq_true _ _).mp hup).2
      have htid : ¬ t.id = hotel.id := by
        intro hth
        have hut : u = t :=
          eq_of_mem_of_id_eq hporig (hsub.subset humem) (hsub.subset hmem)
            (by rw [huid, hth])
        rw [hut, hcond] at hucond
        exact Bool.false_ne_true hucond
      have hstep : purgeStep threshold acc hotel =
          (acc.1 + 1,
           { acc.2 with
               settings := acc.2.settings.filter (fun x : Tenant => !(x.id == hotel.id)),
               orders := acc.2.orders.filter (fun o : OrderRow => !(o.hotel_id == hotel.id)),
               menu_items :=
                 acc.2.menu_items.filter (fun m : MenuItemRow => !(m.hotel_id == hotel.id)),
               restaurant_tables :=
                 acc.2.restaurant_tables.filter
                   (fun r : TableRow => !(r.hotel_id == hotel.id)) }) := by
        unfold purgeStep
        rw [if_pos hany]
      refine ih _ ?_ ?_
      · rw [hstep]
        exact (List.filter_sublist _).trans hsub
      · rw [hstep]
        exact List.mem_filter.mpr ⟨hmem, by simpa using htid⟩
    · have hstep : purgeStep threshold acc hotel = (acc.1, acc.2) := by
        unfold purgeStep
        rw [if_neg hany]
      refine ih _ ?_ ?_
      · rw [hstep]
        exact hsub
      · rw [hstep]
        exact hmem

/-- C5: the tenant purge leaves untouched every tenant that does not satisfy
all four purge conditions (status `trial_expired`, no payment ever,
`is_active = 0`, created before the 31-day threshold); in particular a tenant
with any non-null `last_payment_date` is never deleted, regardless of age;
and a tenant can only disappear when the four conditions held for it. -/
theorem C5_purge_safety (s : Store) (now : Int) (hu : UniqueIds s) :
    (∀ t : Tenant, t ∈ s.settings →
      purgeCond (now - ACCOUNT_DELETE_DAYS * daySecs) t = false →
      t ∈ (check_account_inactivity s now).2.settings) ∧
    (∀ t : Tenant, t ∈ s.settings → t.last_payment_date.isSome = true →
      t ∈ (check_account_inactivity s now).2.settings) ∧
    (∀ t : Tenant, t ∈ s.settings → t ∉ (check_account_inactivity s now).2.settings →
      purgeCond (now - ACCOUNT_DELETE_DAYS * daySecs) t = true) := by
  have key : ∀ t : Tenant, t ∈ s.settings →
      purgeCond (now - ACCOUNT_DELETE_DAYS * daySecs) t = false →
      t ∈ (check_account_inactivity s now).2.settings := by
    intro t hmem hcond
    show t ∈ (((s.settings.filter (purgeCond (now - ACCOUNT_DELETE_DAYS * daySecs))).foldl
      (purgeStep (now - ACCOUNT_DELETE_DAYS * daySecs)) (0, s)).2.settings)
    exact purge_foldl_keeps _ t s.settings hu hcond _ (0, s) (List.Sublist.refl _) hmem
  refine ⟨key, ?_, ?_⟩
  · intro t hmem hpay
    apply key t hmem
    unfold purgeCond
    rcases Option.isSome_iff_exists.mp hpay with ⟨d, hd⟩
    simp [hd]
  · intro t hmem hnot
    rcases Bool.eq_false_or_eq_true (purgeCond (now - ACCOUNT_DELETE_DAYS * daySecs) t)
      with hc | hc
    · exact hc
    · exact absurd (key t hmem hc) hnot

/-- Witness for C5: a tenant with payment history survives the purge even
when old, expired and inactive. -/
theorem C5_witness :
    paidTenant ∈ (check_account_inactivity paidStore (40 * daySecs)).2.settings :=
  (C5_purge_safety paidStore (40 * daySecs)
    (by simp [UniqueIds, paidStore])).2.1 paidTenant (by decide) (by decide)

/-! ## C8: OTP single-live-token invariant -/

/-- C8: issuing a new OTP removes every prior token for that email, so
exactly one token for the email remains after `save_otp` (hence at most one
live token), tokens of other emails are untouched, the first code then fails
verification even while unexpired, and `mark_otp_used` never adds tokens. -/
theorem C8_otp_invalidation (s : Store) (email c1 c2 : String) (now now2 : Int)
    (hne : c1 ≠ c2) :
    ((save_otp s email c2 now).2.otp_tokens.filter
        (fun tok : OtpToken => tok.owner_email == email)) =
      [⟨email, c2, now + 10 * 60, 0⟩] ∧
    (∀ e2 : String, e2 ≠ email →
      (save_otp s email c2 now).2.otp_tokens.filter
          (fun tok : OtpToken => tok.owner_email == e2) =
        s.otp_tokens.filter (fun tok : OtpToken => tok.owner_email == e2)) ∧
    check_otp (save_otp s email c2 now).2 email c1 now2 = false ∧
    (∀ e2 : String,
      ((mark_otp_used s email).2.otp_tokens.filter
          (fun tok : OtpToken => tok.owner_email == e2)).length =
        (s.otp_tokens.filter (fun tok : OtpToken => tok.owner_email == e2)).length) := by
  refine ⟨?_, ?_, ?_, ?_⟩
  · show ((s.otp_tokens.filter (fun tok : OtpToken => !(tok.owner_email == email)) ++
      ([⟨email, c2, now + 10 * 60, 0⟩] : List OtpToken)).filter
        (fun tok : OtpToken => tok.owner_email == email)) = _
    rw [List.filter_append]
    have h1 : (s.otp_tokens.filter (fun tok : OtpToken => !(tok.owner_email == email))).filter
        (fun tok : OtpToken => tok.owner_email == email) = [] := by
      refine List.filter_eq_nil_iff.mpr ?_
      intro x hx
      have hq : (!(x.owner_email == email)) = true := (List.mem_filter.mp hx).2
      simp at hq
      simp [hq]
    rw [h1, List.nil_append]
    rw [List.filter_cons]
    simp
  · intro e2 he2
    show ((s.otp_tokens.filter (fun tok : OtpToken => !(tok.owner_email == email)) ++
      ([⟨email, c2, now + 10 * 60, 0⟩] : List OtpToken)).filter
        (fun tok : OtpToken => tok.owner_email == e2)) = _
    rw [List.filter_append]
    have h2 : ([(⟨email, c2, now + 10 * 60, 0⟩ : OtpToken)].filter
        (fun tok : OtpToken => tok.owner_email == e2)) = [] := by
      rw [List.filter_cons]
      simp [Ne.symm he2]
    rw [h2, List.append_nil]
    rw [List.filter_filter]
    refine List.filter_congr ?_
    intro x hx
    by_cases hp : (x.owner_email == e2) = true
    · have : x.owner_email = e2 := by simpa using hp
      simp [hp, this, he2]
    · simp [hp]
  · show ((s.otp_tokens.filter (fun tok : OtpToken => !(tok.owner_email == email)) ++
      ([⟨email, c2, now + 10 * 60, 0⟩] : List OtpToken)).any (fun t : OtpToken =>
        t.owner_email == email && t.otp_code == c1 && t.is_used == 0 &&
          decide (now2 < t.expires_at))) = false
    rw [List.any_append]
    have h1 : (s.otp_tokens.filter (fun tok : OtpToken => !(tok.owner_email == email))).any
        (fun t : OtpToken => t.owner_email == email && t.otp_code == c1 && t.is_used == 0 &&
          decide (now2 < t.expires_at)) = false := by
      rw [List.any_eq_false]
      intro x hx
      have hq : (!(x.owner_email == email)) = true := (List.mem_filter.mp hx).2
      simp at hq
      simp [hq]
    have h2 : ([(⟨email, c2, now + 10 * 60, 0⟩ : OtpToken)].any (fun t : OtpToken =>
        t.owner_email == email && t.otp_code == c1 && t.is_used == 0 &&
          decide (now2 < t.expires_at))) = false := by
      simp [Ne.symm hne]
    rw [h1, h2]
    rfl
  · intro e2
    show ((s.otp_tokens.map (fun t : OtpToken =>
        if t.owner_email == email && t.is_used == 0 then { t with is_used := 1 } else t)).filter
          (fun tok : OtpToken => tok.owner_email == e2)).length = _
    rw [filter_map_comm _ _ ?_ s.otp_tokens]
    · rw [List.length_map]
    · intro x
      by_cases hx : (x.owner_email == email && x.is_used == 0) = true
      · rw [if_pos hx]
      · rw [if_neg hx]

/-- Witness for C8: after a second code is issued, the first (unexpired) code
no longer verifies. -/
theorem C8_witness :
    check_otp (save_otp otpStore "a@b" "222222" 0).2 "a@b" "111111" 10 = false :=
  (C8_otp_invalidation otpStore "a@b" "111111" "222222" 0 10 (by decide)).2.2.1

/-! ## C3: activation never partially applies -/

/-- The UPDATE of `activate_subscription` references settings columns that
the schema never defines, so its preparation fails. -/
theorem activate_update_prepare_fails :
    columnsOk settingsColumns activateUpdateColumns = false := by decide

/-- Every call of `activate_subscription` hits the `no such column` error at
the UPDATE, is caught, and returns failure with the store unchanged —
whatever the tenant, plan, payment id or injected failures. -/
theorem activate_always_fails (s : Store) (hotel_id : Nat) (plan : String)
    (payment_id : Option String) (now : Int) (fU fI fC : Bool) :
    activate_subscription s hotel_id plan payment_id now fU fI fC = (false, s) := by
  unfold activate_subscription
  cases hp : planLookup plan with
  | none => rfl
  | some p =>
    have hcols : columnsOk settingsColumns activateUpdateColumns = false :=
      activate_update_prepare_fails
    simp [hcols]

/-- C3: for an existing tenant and a known plan, `activate_subscription`
reports failure and applies none of its effects — in particular the
`subscription_activated` event is not written.  The all-effects success
branch of the claim is unreachable: the UPDATE names the settings columns
`subscription_start_date`, `payment_status` and `razorpay_payment_id`,
which `init_db` never creates, so every call raises and rolls back; the
operation is therefore never partially applied. -/
theorem C3_activate_subscription_atomic (s : Store) (hotel_id : Nat) (plan : String)
    (payment_id : Option String) (now : Int) (fU fI fC : Bool) (p : Plan) (t : Tenant)
    (hp : planLookup plan = some p) (ht : findTenant s hotel_id = some t) :
    activate_subscription s hotel_id plan payment_id now fU fI fC = (false, s) ∧
    (activate_subscription s hotel_id plan payment_id now fU fI fC).2.settings =
      s.settings ∧
    (activate_subscription s hotel_id plan payment_id now fU fI fC).2.subscription_logs =
      s.subscription_logs := by
  refine ⟨activate_always_fails s hotel_id plan payment_id now fU fI fC, ?_, ?_⟩
  · rw [activate_always_fails s hotel_id plan payment_id now fU fI fC]
  · rw [activate_always_fails s hotel_id plan payment_id now fU fI fC]

/-- Witness for C3: activating the existing trial tenant with a known plan
reports failure and leaves the store unchanged. -/
theorem C3_witness :
    activate_subscription trialStore 1 "basic" (some "pay_1") 0 false false false =
      (false, trialStore) :=
  (C3_activate_subscription_atomic trialStore 1 "basic" (some "pay_1") 0
    false false false ⟨"Basic", 2499, 30⟩ trialTenant (by decide) (by decide)).1

/-! ## C4: duplicate-active-subscription guard -/

/-- C4 counterexample: with the prior paid period already over (end date 10,
now 20) and a correctly signed payment, the endpoint does not accept: it
returns the activation-failure response, because activation always fails on
the missing settings columns. -/
theorem C4_counterexample :
    (api_verify_payment macSample "sec" expiredPaidStore (some 2) (some "order_1")
        (some "pay_1") (some (hexdigest (macSample "sec" "order_1|pay_1")))
        (some "basic") 20 false false false).1 = ApiPayResult.activationFailed ∧
    (api_verify_payment macSample "sec" expiredPaidStore (some 2) (some "order_1")
        (some "pay_1") (some (hexdigest (macSample "sec" "order_1|pay_1")))
        (some "basic") 20 false false false).1 ≠ ApiPayResult.activated "basic" := by
  refine ⟨by decide, by decide⟩

/-- C4 amended: the duplicate-active-subscription guard returns true exactly
when the tenant's status is `active` and `now` is strictly before
`subscription_end_date`; the payment-confirmation endpoint rejects activation
with a conflict whenever the guard is true — even for a correctly signed
payment.  Once that end date is in the past the guard passes and the
signature verifies (persisting the payment row), but the endpoint then
returns the activation-failure response rather than accepting, because
`activate_subscription` always fails on the settings columns missing from
the schema. -/
theorem C4_guard_and_endpoint (s : Store) (hotel_id : Nat) (now : Int)
    (hu : UniqueIds s) :
    ((check_existing_subscription s hotel_id now).1 = true ↔
      ∃ t : Tenant, findTenant s hotel_id = some t ∧
        t.subscription_status = "active" ∧
        ∃ e : Int, t.subscription_end_date = some e ∧ now < e) ∧
    (∀ (mac : String → String → List Nat) (secret oid pid sig pl : String)
        (p : Plan) (fU fI fC : Bool),
      oid ≠ "" → pid ≠ "" → sig ≠ "" → pl ≠ "" → planLookup pl = some p →
      (check_existing_subscription s hotel_id now).1 = true →
      api_verify_payment mac secret s (some hotel_id) (some oid) (some pid) (some sig)
          (some pl) now fU fI fC =
        (.conflictActive (check_existing_subscription s hotel_id now).2, s)) ∧
    (∀ (mac : String → String → List Nat) (secret oid pid pl : String)
        (p : Plan),
      oid ≠ "" → pid ≠ "" → pl ≠ "" → planLookup pl = some p →
      hexdigest (mac secret (oid ++ "|" ++ pid)) ≠ "" →
      (check_existing_subscription s hotel_id now).1 = false →
      api_verify_payment mac secret s (some hotel_id) (some oid) (some pid)
          (some (hexdigest (mac secret (oid ++ "|" ++ pid)))) (some pl) now
          false false false =
        (ApiPayResult.activationFailed,
         { s with payments := s.payments ++ [⟨oid, pid, 0, "verified", now⟩] })) := by
  refine ⟨?_, ?_, ?_⟩
  · constructor
    · intro h
      unfold check_existing_subscription at h
      cases hfind : s.settings.find?
          (fun t : Tenant => t.id == hotel_id && t.subscription_status == "active") with
      | none =>
        simp only [hfind] at h
        exact absurd h (by simp)
      | some r =>
        simp only [hfind] at h
        have hr := List.find?_some hfind
        have hrid : r.id = hotel_id := by
          have := (Bool.and_eq_true _ _).mp hr
          simpa using this.1
        have hrstat : r.subscription_status = "active" := by
          have := (Bool.and_eq_true _ _).mp hr
          simpa using this.2
        cases hend : r.subscription_end_date with
        | none =>
          simp only [hend] at h
          exact absurd h (by simp)
        | some e =>
          simp only [hend] at h
          by_cases hlt : now < e
          · refine ⟨r, ?_, hrstat, e, hend, hlt⟩
            exact find?_eq_some_of_unique _ hu (List.mem_of_find?_eq_some hfind)
              (by simpa using hrid) (fun x hx => by
                have : x.id = hotel_id := by simpa using hx
                rw [this, hrid])
          · rw [if_neg hlt] at h
            exact absurd h (by simp)
    · rintro ⟨t, ht, hstat, e, hend, hlt⟩
      have htid : t.id = hotel_id := by simpa using List.find?_some ht
      have hfind : s.settings.find?
          (fun x : Tenant => x.id == hotel_id && x.subscription_status == "active") =
          some t := by
        refine find?_eq_some_of_unique _ hu (List.mem_of_find?_eq_some ht) ?_ ?_
        · simp [htid, hstat]
        · intro x hx
          have : x.id = hotel_id := by
            have := (Bool.and_eq_true _ _).mp hx
            simpa using this.1
          rw [this, htid]
      unfold check_existing_subscription
      simp only [hfind, hend, if_pos hlt]
  · intro mac secret oid pid sig pl p fU fI fC hoid hpid hsig hpl hp hguard
    have t1 : truthy (some oid) = true := by simp [truthy, hoid]
    have t2 : truthy (some pid) = true := by simp [truthy, hpid]
    have t3 : truthy (some sig) = true := by simp [truthy, hsig]
    have t4 : truthy (some pl) = true := by simp [truthy, hpl]
    simp [api_verify_payment, t1, t2, t3, t4, hp, hguard]
  · intro mac secret oid pid pl p hoid hpid hpl hp hsig hguard
    have t1 : truthy (some oid) = true := by simp [truthy, hoid]
    have t2 : truthy (some pid) = true := by simp [truthy, hpid]
    have t3 : truthy (some (hexdigest (mac secret (oid ++ "|" ++ pid)))) = true := by
      simp [truthy, hsig]
    have t4 : truthy (some pl) = true := by simp [truthy, hpl]
    have hver : (verify_razorpay_payment mac secret s oid pid
        (hexdigest (mac secret (oid ++ "|" ++ pid))) now) =
        ((true, "Payment verified successfully"),
         { s with payments := s.payments ++ [⟨oid, pid, 0, "verified", now⟩] }) := by
      unfold verify_razorpay_payment
      rw [if_pos (beq_self_eq_true _)]
    have hact := activate_always_fails
      { s with payments := s.payments ++ [⟨oid, pid, 0, "verified", now⟩] }
      hotel_id pl (some pid) now false false false
    simp [api_verify_payment, t1, t2, t3, t4, hp, hguard, hver, hact]

/-- Witness for C4: with a live paid subscription the endpoint returns the
conflict rejection even for well-formed inputs. -/
theorem C4_witness :
    api_verify_payment macSample "sec" paidStore (some 3) (some "order_1") (some "pay_9")
        (some "sigx") (some "basic") 500 false false false =
      (.conflictActive (check_existing_subscription paidStore 3 500).2, paidStore) :=
  (C4_guard_and_endpoint paidStore 3 500 (by simp [UniqueIds, paidStore])).2.1
    macSample "sec" "order_1" "pay_9" "sigx" "basic" ⟨"Basic", 2499, 30⟩ false false false
    (by decide) (by decide) (by decide) (by decide) (by decide) (by decide)

/-! ## C10: activation for a missing tenant -/

/-- C10 counterexample: with no tenant record for the hotel id,
`activate_subscription` does not report success — it returns false (the
UPDATE fails at prepare time on the missing settings columns, before the
WHERE clause matters). -/
theorem C10_counterexample :
    (activate_subscription emptyStore 7 "basic" (some "pay_9") 0 false false false).1 =
      false ∧
    (activate_subscription emptyStore 7 "basic" (some "pay_9") 0 false false false).1 ≠
      true := by
  refine ⟨by decide, by decide⟩

/-- C10 amended: when `activate_subscription` is called with a hotel id for
which no tenant record exists, it reports failure (returns false) while
updating no tenant record and appending no subscription event — the same
prepare-time `no such column` failure every call hits — rather than a
specific not-found failure. -/
theorem C10_activate_absent_tenant (s : Store) (hotel_id : Nat) (plan : String)
    (payment_id : Option String) (now : Int) (p : Plan)
    (hp : planLookup plan = some p) (ht : findTenant s hotel_id = none) :
    activate_subscription s hotel_id plan payment_id now false false false = (false, s) :=
  activate_always_fails s hotel_id plan payment_id now false false false

/-- Witness for C10: activating an unknown tenant on the empty store fails
and changes nothing. -/
theorem C10_witness :
    activate_subscription emptyStore 7 "basic" (some "pay_9") 0 false false false =
      (false, emptyStore) :=
  C10_activate_absent_tenant emptyStore 7 "basic" (some "pay_9") 0
    ⟨"Basic", 2499, 30⟩ (by decide) (by decide)

/-! ## C6: idempotence of the retention sub-jobs -/

/-- The log INSERT of `deactivate_account` and `check_trial_expiry` names the
`old_status` column missing from `subscription_logs`, so its preparation
fails. -/
theorem log_insert_prepare_fails :
    columnsOk subscriptionLogsColumns logInsertColumns = false := by decide

/-- Every call of `deactivate_account` fails on the log INSERT and rolls the
buffered UPDATE back: the store is unchanged. -/
theorem deactivate_always_fails (s : Store) (hotel_id : Nat) (reason : String)
    (now : Int) :
    deactivate_account s hotel_id reason now = (false, s) := by
  unfold deactivate_account
  simp [log_insert_prepare_fails]

/-- One iteration of the paid-expiry loop leaves the store unchanged. -/
theorem subExpiryStep_id (now : Int) (st : Store) (hotel : Tenant) :
    subExpiryStep now st hotel = st := by
  unfold subExpiryStep
  rw [deactivate_always_fails]

/-- The whole paid-expiry loop leaves the store unchanged. -/
theorem foldl_subExpiryStep (now : Int) :
    ∀ (L : List Tenant) (st : Store), L.foldl (subExpiryStep now) st = st := by
  intro L
  induction L with
  | nil => intro st; rfl
  | cons h L ih =>
    intro st
    rw [List.foldl_cons, subExpiryStep_id, ih]

/-- Reduction of `check_subscription_expiry`: it reports the number of
selected tenants and changes nothing. -/
theorem check_subscription_expiry_eq (s : Store) (now : Int) :
    check_subscription_expiry s now =
      ((s.settings.filter (subExpiredSel now)).length, s) := by
  show ((s.settings.filter (subExpiredSel now)).length,
    (s.settings.filter (subExpiredSel now)).foldl (subExpiryStep now) s) = _
  rw [foldl_subExpiryStep]

/-- Reduction of `check_trial_expiry`: with no expired trial it returns 0,
otherwise it raises on the missing `old_status` column; in both cases the
store is unchanged. -/
theorem check_trial_expiry_eq (s : Store) (now : Int) :
    (s.settings.filter (trialExpiredSel now) = [] →
      check_trial_expiry s now = (some 0, s)) ∧
    (s.settings.filter (trialExpiredSel now) ≠ [] →
      check_trial_expiry s now = (none, s)) := by
  constructor
  · intro h
    unfold check_trial_expiry
    simp only [h]
  · intro h
    unfold check_trial_expiry
    cases hfil : s.settings.filter (trialExpiredSel now) with
    | nil => exact absurd hfil h
    | cons a l =>
      simp only [hfil]
      rw [if_neg (by rw [log_insert_prepare_fails]; exact Bool.false_ne_true)]

/-- C6 counterexample: on a store with one expired paid subscription, a
second run of `check_subscription_expiry` with no intervening state change
reports one affected tenant again, not zero. -/
theorem C6_counterexample :
    (check_subscription_expiry (check_subscription_expiry expiredPaidStore 20).2 20).1 =
      1 ∧
    (check_subscription_expiry (check_subscription_expiry expiredPaidStore 20).2 20).1 ≠
      0 := by
  refine ⟨by decide, by decide⟩

/-- C6 amended: neither sub-job ever persists a change, because the
deactivation and trial-expiry log INSERTs name the missing `old_status`
column.  `check_subscription_expiry` leaves the store unchanged and reports
the number of currently expired subscriptions, so a second run repeats the
same (possibly nonzero) count instead of reporting zero; `check_trial_expiry`
leaves the store unchanged, returning 0 when no trial is expired and raising
otherwise, and a second run behaves exactly like the first. -/
theorem C6_amended_idempotence (s : Store) (now : Int) :
    check_subscription_expiry s now =
      ((s.settings.filter (subExpiredSel now)).length, s) ∧
    check_subscription_expiry (check_subscription_expiry s now).2 now =
      check_subscription_expiry s now ∧
    (check_trial_expiry s now).2 = s ∧
    check_trial_expiry (check_trial_expiry s now).2 now = check_trial_expiry s now ∧
    ((check_trial_expiry s now).1 = none ↔
      s.settings.filter (trialExpiredSel now) ≠ []) := by
  have hsub := check_subscription_expiry_eq s now
  have htrial := check_trial_expiry_eq s now
  have htrial2 : (check_trial_expiry s now).2 = s := by
    cases hfil : s.settings.filter (trialExpiredSel now) with
    | nil => rw [htrial.1 hfil]
    | cons a l => rw [htrial.2 (by rw [hfil]; exact List.cons_ne_nil a l)]
  refine ⟨hsub, ?_, htrial2, ?_, ?_⟩
  · rw [hsub]
    exact hsub
  · rw [htrial2]
  · cases hfil : s.settings.filter (trialExpiredSel now) with
    | nil =>
      rw [htrial.1 hfil]
      simp [hfil]
    | cons a l =>
      rw [htrial.2 (by rw [hfil]; exact List.cons_ne_nil a l)]
      simp [hfil]

/-! ## C7: retention scenario -/

/-- C7 counterexample: `ExpireTrials` run at T0+8d on the scenario tenant
does not set `trial_expired`/`is_active = 0` — it raises on the missing
`old_status` column (result `none`) and its UPDATE rolls back, leaving the
tenant exactly as created (status `trial`, `is_active = 1`). -/
theorem C7_counterexample :
    (check_trial_expiry scenarioStore (8 * daySecs)).1 = none ∧
    findTenant (check_trial_expiry scenarioStore (8 * daySecs)).2 1 =
      some scenarioTenant := by
  refine ⟨by decide, by decide⟩

/-- C7 amended: in the scenario, `ExpireTrials` at T0+8d raises on the
missing `old_status` column and rolls back, leaving the tenant in status
`trial` with `is_active = 1`; the purge conditions (which require
`trial_expired` and `is_active = 0`) therefore never hold, and
`PurgeInactiveTenants` leaves the tenant in place at T0+8d+31d and at
T0+8d+30d alike — the tenant is never deleted. -/
theorem C7_amended_scenario :
    (check_trial_expiry scenarioStore (8 * daySecs)).1 = none ∧
    (check_trial_expiry scenarioStore (8 * daySecs)).2 = scenarioStore ∧
    findTenant (check_account_inactivity (check_trial_expiry scenarioStore (8 * daySecs)).2
      (8 * daySecs + 31 * daySecs)).2 1 = some scenarioTenant ∧
    findTenant (check_account_inactivity (check_trial_expiry scenarioStore (8 * daySecs)).2
      (8 * daySecs + 30 * daySecs)).2 1 = some scenarioTenant := by
  refine ⟨by decide, by decide, by decide, by decide⟩

/-! ## C9: the event log is never mutated or deleted -/

/-- Reflexivity of the append-only relation. -/
theorem logsAppendOnly_refl (s : Store) : logsAppendOnly s s :=
  ⟨[], (List.append_nil _).symm⟩

/-- Transitivity of the append-only relation. -/
theorem logsAppendOnly_trans {a b c : Store} :
    logsAppendOnly a b → logsAppendOnly b c → logsAppendOnly a c
  | ⟨t1, h1⟩, ⟨t2, h2⟩ => ⟨t1 ++ t2, by rw [h2, h1, List.append_assoc]⟩

/-- A loop whose body only appends to the event log only appends overall. -/
theorem foldl_logsAppendOnly {σ β : Type} (proj : σ → Store) (f : σ → β → σ)
    (hf : ∀ st b, logsAppendOnly (proj st) (proj (f st b))) :
    ∀ (L : List β) (st : σ), logsAppendOnly (proj st) (proj (L.foldl f st)) := by
  intro L
  induction L with
  | nil => intro st; exact logsAppendOnly_refl _
  | cons b L ih =>
    intro st
    rw [List.foldl_cons]
    exact logsAppendOnly_trans (hf st b) (ih (f st b))

/-- Payment verification never touches the event log. -/
theorem verify_logs (mac : String → String → List Nat) (secret : String) (s : Store)
    (oid pid sig : String) (now : Int) :
    (verify_razorpay_payment mac secret s oid pid sig now).2.subscription_logs =
      s.subscription_logs := by
  unfold verify_razorpay_payment
  by_cases h : (hexdigest (mac secret (oid ++ "|" ++ pid)) == sig) = true
  · rw [if_pos h]
  · rw [if_neg h]

/-- The purge loop body never touches the event log. -/
theorem purgeStep_logs (th : Int) (acc : Nat × Store) (hotel : Tenant) :
    (purgeStep th acc hotel).2.subscription_logs = acc.2.subscription_logs := by
  unfold purgeStep
  by_cases h : (acc.2.settings.any
      (fun t : Tenant => t.id == hotel.id && purgeCond th t)) = true
  · rw [if_pos h]
  · rw [if_neg h]

/-- C9: subscription-log rows are never mutated or deleted by any modelled
operation — every operation either leaves the event log unchanged or appends
to it.  In this program no operation ever in fact appends either: activation
and deactivation always fail and roll back, trial expiry raises before
logging, and the retention job's DELETEs roll back at the VACUUM error — so
the log is left exactly unchanged by every operation, which satisfies the
claim. -/
theorem C9_event_log_append_only (s : Store) (hid : Nat) (now days : Int)
    (mac : String → String → List Nat) (secret oid pid sig pl reason email code : String)
    (pay : Option String) (fU fI fC : Bool) (sess : Option Nat)
    (oid2 pid2 sig2 pl2 : Option String) (now2 : Int) :
    logsAppendOnly s (is_subscription_active s hid now).2 ∧
    logsAppendOnly s (verify_razorpay_payment mac secret s oid pid sig now).2 ∧
    logsAppendOnly s (activate_subscription s hid pl pay now fU fI fC).2 ∧
    logsAppendOnly s (deactivate_account s hid reason now).2 ∧
    logsAppendOnly s (check_subscription_expiry s now).2 ∧
    logsAppendOnly s (check_trial_expiry s now).2 ∧
    logsAppendOnly s (check_account_inactivity s now).2 ∧
    logsAppendOnly s (save_otp s email code now).2 ∧
    logsAppendOnly s (mark_otp_used s email).2 ∧
    logsAppendOnly s
      (api_verify_payment mac secret s sess oid2 pid2 sig2 pl2 now2 fU fI fC).2 ∧
    logsAppendOnly s (delete_old_orders s now days).2 := by
  refine ⟨logsAppendOnly_refl s, ⟨[], by rw [verify_logs, List.append_nil]⟩,
    ?_, ?_, ?_, ?_, ?_, logsAppendOnly_refl _, ⟨[], by rw [List.append_nil]; rfl⟩,
    ?_, logsAppendOnly_refl s⟩
  · rw [activate_always_fails]
    exact logsAppendOnly_refl s
  · rw [deactivate_always_fails]
    exact logsAppendOnly_refl s
  · rw [check_subscription_expiry_eq]
    exact logsAppendOnly_refl s
  · have h2 : (check_trial_expiry s now).2 = s := by
      cases hfil : s.settings.filter (trialExpiredSel now) with
      | nil => rw [(check_trial_expiry_eq s now).1 hfil]
      | cons a l =>
        rw [(check_trial_expiry_eq s now).2 (by rw [hfil]; exact List.cons_ne_nil a l)]
    rw [h2]
    exact logsAppendOnly_refl s
  · show logsAppendOnly s ((s.settings.filter
      (purgeCond (now - ACCOUNT_DELETE_DAYS * daySecs))).foldl
        (purgeStep (now - ACCOUNT_DELETE_DAYS * daySecs)) (0, s)).2
    exact foldl_logsAppendOnly Prod.snd
      (purgeStep (now - ACCOUNT_DELETE_DAYS * daySecs))
      (fun st h => ⟨[], by rw [purgeStep_logs, List.append_nil]⟩) _ (0, s)
  · cases sess with
    | none => exact logsAppendOnly_refl s
    | some hid2 =>
      show logsAppendOnly s (if
          (!(truthy oid2 && truthy pid2 && truthy sig2 && truthy pl2)) = true then
            ((ApiPayResult.missingInfo, s) : ApiPayResult × Store)
          else _).2
      by_cases h1 : (!(truthy oid2 && truthy pid2 && truthy sig2 && truthy pl2)) = true
      · rw [if_pos h1]
        exact logsAppendOnly_refl s
      · rw [if_neg h1]
        by_cases h2 : (planLookup (pl2.getD "")).isNone = true
        · rw [if_pos h2]
          exact logsAppendOnly_refl s
        · rw [if_neg h2]
          by_cases h3 : (check_existing_subscription s hid2 now2).1 = true
          · rw [if_pos h3]
            exact logsAppendOnly_refl s
          · rw [if_neg h3]
            by_cases h4 : (verify_razorpay_payment mac secret s (oid2.getD "")
                (pid2.getD "") (sig2.getD "") now2).1.1 = true
            · rw [if_pos h4]
              have hv : logsAppendOnly s (verify_razorpay_payment mac secret s
                  (oid2.getD "") (pid2.getD "") (sig2.getD "") now2).2 :=
                ⟨[], by rw [verify_logs, List.append_nil]⟩
              have ha : (activate_subscription (verify_razorpay_payment mac secret s
                  (oid2.getD "") (pid2.getD "") (sig2.getD "") now2).2
                    hid2 (pl2.getD "") (some (pid2.getD "")) now2 fU fI fC) =
                  (false, (verify_razorpay_payment mac secret s (oid2.getD "")
                    (pid2.getD "") (sig2.getD "") now2).2) :=
                activate_always_fails _ hid2 (pl2.getD "") (some (pid2.getD "")) now2
                  fU fI fC
              by_cases h5 : (activate_subscription (verify_razorpay_payment mac secret s
                  (oid2.getD "") (pid2.getD "") (sig2.getD "") now2).2
                    hid2 (pl2.getD "") (some (pid2.getD "")) now2 fU fI fC).1 = true
              · rw [if_pos h5, ha]
                exact hv
              · rw [if_neg h5, ha]
                exact hv
            · rw [if_neg h4]
              exact ⟨[], by rw [verify_logs, List.append_nil]⟩

end HotelApp
